import Mathlib

/-!
# dispatch-mate call/batch orchestration: a verification development

Shallow embedding of the call/batch orchestration engine of the dispatch-mate
repository: the webhook event processor (both versions present in
supabase/functions/subverse-webhook/index.ts), the batch-completion check, the
stuck-call watchdog (src/hooks/useDispatch.ts), the stop-call edge function,
the emergency-stop operation and the trigger-calls dispatch loop.

The store (Supabase tables `calls` and `datasets`) is modelled as lists of
records; row updates filtered by a column are list maps; `.single()` is
modelled as returning a row exactly when the filter matches one row.  Network
interactions (the Subverse details fetch, the call trigger, the call cancel)
are oracle parameters.  Timestamps are natural numbers standing for epoch
milliseconds.
-/

namespace DispatchMate

/-- JS truthiness of an optional string field: `undefined` and the empty
string are falsy, so a `a || b` chain skips them. -/
def jsStr : Option String → Option String
  | some s => if s = "" then none else some s
  | none => none

/-- JS truthiness of an optional numeric field: `undefined` and `0` are falsy. -/
def jsNat : Option Nat → Option Nat
  | some n => if n = 0 then none else some n
  | none => none

/-- ASCII lowercasing, the semantics of `String.prototype.toLowerCase` on the
ASCII event names the handlers compare against. -/
def strToLower (s : String) : String :=
  String.mk (s.toList.map Char.toLower)

/-- Substring containment, the semantics of `String.prototype.includes`. -/
def strIncl (hay needle : String) : Bool :=
  let h := hay.toList
  let n := needle.toList
  (List.range (h.length + 1)).any (fun i => decide ((h.drop i).take n.length = n))

/-- First-occurrence replacement, the semantics of
`String.prototype.replace` with a string pattern. -/
def replaceFirst (s pat sub : String) : String :=
  let h := s.toList
  let q := pat.toList
  match (List.range (h.length + 1)).find? (fun i => decide ((h.drop i).take q.length = q)) with
  | some i => String.mk (h.take i ++ sub.toList ++ h.drop (i + q.length))
  | none => s

/-- Hexadecimal-digit test (case-insensitive) used by the UUID shape check. -/
def isHexChar (c : Char) : Bool :=
  c.isDigit || (decide ('a' ≤ c.toLower) && decide (c.toLower ≤ 'f'))

/-- The test of the webhook's `uuidRegex`
(`/^[0-9a-f]{8}-[0-9a-f]{4}-[0-9a-f]{4}-[0-9a-f]{4}-[0-9a-f]{12}$/i`):
36 characters, hyphens at positions 8, 13, 18 and 23, hex digits elsewhere. -/
def uuidRegexTest (s : String) : Bool :=
  let cs := s.toList
  decide (cs.length = 36) &&
    (List.range 36).all (fun i =>
      if i = 8 ∨ i = 13 ∨ i = 18 ∨ i = 23 then decide (cs.getD i ' ' = '-')
      else isHexChar (cs.getD i ' '))

/-- Call lifecycle status (`queued`, `ringing`, `active` non-terminal;
`completed`, `failed`, `canceled` terminal). -/
inductive CallStatus
  | queued
  | ringing
  | active
  | completed
  | failed
  | canceled
deriving DecidableEq

/-- Membership in `TERMINAL_STATUSES = ["completed", "failed", "canceled"]`. -/
def CallStatus.isTerminal : CallStatus → Bool
  | .completed => true
  | .failed => true
  | .canceled => true
  | _ => false

/-- A row of the `calls` table. -/
structure Call where
  id : String
  dataset_id : String
  call_sid : Option String := none
  reg_no : String := ""
  status : CallStatus
  created_at : Nat := 0
  started_at : Option Nat := none
  completed_at : Option Nat := none
  live_transcript : Option String := none
  refined_transcript : Option String := none
  recording_url : Option String := none
  call_duration : Option Nat := none
  error_message : Option String := none
deriving DecidableEq

/-- A row of the `datasets` table (a batch). -/
structure Dataset where
  id : String
  status : String
  total_calls : Nat
  successful_calls : Nat := 0
  failed_calls : Nat := 0
  completed_at : Option Nat := none
deriving DecidableEq

/-- The store: the `calls` and `datasets` tables. -/
structure DB where
  calls : List Call
  datasets : List Dataset
deriving DecidableEq

/-- `update(...).eq("id", cid)` on the calls table. -/
def updateCalls (calls : List Call) (cid : String) (f : Call → Call) : List Call :=
  calls.map (fun c => if c.id = cid then f c else c)

/-- `update(...).eq("id", did)` on the datasets table. -/
def updateDatasets (dss : List Dataset) (did : String) (f : Dataset → Dataset) : List Dataset :=
  dss.map (fun d => if d.id = did then f d else d)

/-- Modelled from the spec: the `increment_dataset_counts` RPC.  Its SQL body
is not in the repository (only the migration revoking public execute
permission is); per §4.4/§6 of the spec it atomically increments the two
counters of the given dataset by the given deltas. -/
def increment_dataset_counts (dss : List Dataset) (did : String) (ps pf : Nat) : List Dataset :=
  updateDatasets dss did (fun d =>
    { d with successful_calls := d.successful_calls + ps, failed_calls := d.failed_calls + pf })

/-- `.single()`: a row exactly when the filtered result has one row. -/
def singleRow (l : List Call) : Option Call :=
  match l with
  | [c] => some c
  | _ => none

/-- Primary-key lookup in the calls table (first row with the id). -/
def getCall (db : DB) (cid : String) : Option Call :=
  db.calls.find? (fun c => decide (c.id = cid))

/-- Primary-key lookup in the datasets table (first row with the id). -/
def getDataset (db : DB) (did : String) : Option Dataset :=
  db.datasets.find? (fun d => decide (d.id = did))

/-- A webhook payload; the union of the fields the two webhook versions probe
(nested `metadata` and `data` objects are flattened into prefixed fields). -/
structure Payload where
  event : String
  callId : Option String := none
  callSid : Option String := none
  call_id : Option String := none
  duration : Option Nat := none
  recordingUrl : Option String := none
  recording_url : Option String := none
  transcript : Option String := none
  text : Option String := none
  content : Option String := none
  refinedTranscript : Option String := none
  refined_transcript : Option String := none
  data_transcript : Option String := none
  data_text : Option String := none
  data_content : Option String := none
  meta_call_id : Option String := none
  meta_dataset_id : Option String := none
  meta_reg_no : Option String := none
deriving DecidableEq

/-- `extractCallId`: `metadata.call_id || callId || callSid || call_id || null`. -/
def extractCallId (p : Payload) : Option String :=
  jsStr p.meta_call_id <|> jsStr p.callId <|> jsStr p.callSid <|> jsStr p.call_id

/-- `extractSubverseCallId` (first version): `callId || callSid || call_id || null`. -/
def extractSubverseCallId (p : Payload) : Option String :=
  jsStr p.callId <|> jsStr p.callSid <|> jsStr p.call_id

/-- `extractTranscript` (second version): direct `transcript`/`text`/`content`
fields, then the same fields nested under `data`. -/
def extractTranscript (p : Payload) : Option String :=
  jsStr p.transcript <|> jsStr p.text <|> jsStr p.content <|>
    jsStr p.data_transcript <|> jsStr p.data_text <|> jsStr p.data_content

/-- `extractRefinedTranscript` of the first version:
`refinedTranscript || refined_transcript || transcript || null`. -/
def extractRefinedTranscriptV1 (p : Payload) : Option String :=
  jsStr p.refinedTranscript <|> jsStr p.refined_transcript <|> jsStr p.transcript

/-- `extractRefinedTranscript` of the second version:
`refinedTranscript || refined_transcript || null`. -/
def extractRefinedTranscriptV2 (p : Payload) : Option String :=
  jsStr p.refinedTranscript <|> jsStr p.refined_transcript

/-- `extractRecordingUrl`: `recordingUrl || recording_url || null`. -/
def extractRecordingUrl (p : Payload) : Option String :=
  jsStr p.recordingUrl <|> jsStr p.recording_url

/-- Event-name lists of the second webhook version. -/
def TRANSCRIPT_EVENTS : List String :=
  ["call.transcript", "call.transcript.partial", "transcript.partial", "transcript"]

/-- Completion event names. -/
def COMPLETION_EVENTS : List String :=
  ["call.completed", "call.ended", "call_finished"]

/-- Failure event names. -/
def FAILURE_EVENTS : List String :=
  ["call.failed", "call.no_answer", "call.busy", "call.canceled"]

/-- `EVENTS.some(e => eventType.includes(e.replace("call.", "")))`. -/
def eventMatches (evs : List String) (eventType : String) : Bool :=
  evs.any (fun e => strIncl eventType (replaceFirst e "call." ""))

/-- `datasetId || call.dataset_id`: the dataset id from the payload metadata
when truthy, else the resolved call's dataset id. -/
def resolvedDatasetId (p : Payload) (call : Call) : String :=
  match jsStr p.meta_dataset_id with
  | some d => d
  | none => call.dataset_id

/-- `findCall`: when the identifier is UUID-shaped try the internal id first,
then (and otherwise) match the external `call_sid`. -/
def findCall (calls : List Call) (callId : String) : Option Call :=
  if uuidRegexTest callId then
    match singleRow (calls.filter (fun c => decide (c.id = callId))) with
    | some c => some c
    | none => singleRow (calls.filter (fun c => decide (c.call_sid = some callId)))
  else
    singleRow (calls.filter (fun c => decide (c.call_sid = some callId)))

/-- `checkAndUpdateDatasetCompletion` (identical in both webhook versions):
re-read the calls of the dataset whose status is not terminal; when none
remain, set the dataset to `completed` with `completed_at = now`. -/
def checkAndUpdateDatasetCompletion (db : DB) (datasetId : String) (now : Nat) : DB :=
  let remaining := db.calls.filter (fun c => decide (c.dataset_id = datasetId) && !c.status.isTerminal)
  if remaining.isEmpty then
    { db with datasets := (updateDatasets db.datasets datasetId
        (fun d => { d with status := "completed", completed_at := some now })) }
  else db

/-- Body of an HTTP response of the webhook. -/
inductive RespBody
  | ok (skipped : Bool) (reason : Option String)
  | err (msg : String)
deriving DecidableEq

/-- An HTTP response: status code and JSON body. -/
structure Resp where
  status : Nat
  body : RespBody
deriving DecidableEq

/-- Result of `fetchSubverseCallDetails` (already normalized by that helper);
supplied by an oracle standing for the network call. -/
structure CallDetails where
  transcript : Option String := none
  refinedTranscript : Option String := none
  recordingUrl : Option String := none
  duration : Option Nat := none
deriving DecidableEq

/-- Completion-branch row update of the first webhook version: build
`updateData` from the payload, falling back to the Subverse details fetch
(the `fetch` oracle) when the payload carries no transcript. -/
def completionUpdateV1 (fetch : String → Option CallDetails) (p : Payload) (c : Call)
    (now : Nat) : Call :=
  let recording0 := extractRecordingUrl p
  let refined0 := extractRefinedTranscriptV1 p
  let fetched : Option CallDetails :=
    if refined0 = none then
      match extractSubverseCallId p with
      | some sid => fetch sid
      | none => none
    else none
  let refined := match fetched with
    | some d => jsStr d.refinedTranscript <|> jsStr d.transcript
    | none => refined0
  let recording := match fetched with
    | some d => jsStr recording0 <|> jsStr d.recordingUrl
    | none => recording0
  let dur := match jsNat p.duration with
    | some n => some n
    | none =>
      match fetched with
      | some d => jsNat d.duration
      | none => none
  { c with
    status := .completed
    completed_at := some now
    call_duration := match dur with | some n => some n | none => c.call_duration
    recording_url := match recording with | some r => some r | none => c.recording_url
    refined_transcript := match refined with | some t => some t | none => c.refined_transcript }

/-- Completion-branch row update of the second webhook version. -/
def completionUpdateV2 (p : Payload) (c : Call) (now : Nat) : Call :=
  let recording := extractRecordingUrl p
  let refined := extractRefinedTranscriptV2 p
  let raw := extractTranscript p
  { c with
    status := .completed
    completed_at := some now
    call_duration := match jsNat p.duration with | some n => some n | none => c.call_duration
    recording_url := match recording with | some r => some r | none => c.recording_url
    refined_transcript := match refined with
      | some t => some t
      | none => match raw with | some t => some t | none => c.refined_transcript }

/-- Failure-branch row update (textually identical in both webhook versions):
`status failed`, `error_message` from the event name with `call.` and the
first underscore stripped, `completed_at = now`. -/
def failureUpdate (p : Payload) (c : Call) (now : Nat) : Call :=
  let failureReason := replaceFirst (replaceFirst p.event "call." "") "_" " "
  { c with
    status := .failed
    error_message := some ("Call " ++ failureReason)
    completed_at := some now }

/-- Completion path of the first webhook version: row update, success-counter
increment, dataset-completion check. -/
def applyCompletionV1 (fetch : String → Option CallDetails) (p : Payload) (db : DB)
    (call : Call) (now : Nat) : DB :=
  let rid := resolvedDatasetId p call
  let db1 := { db with calls := (updateCalls db.calls call.id
      (fun c => completionUpdateV1 fetch p c now)) }
  let db2 := { db1 with datasets := increment_dataset_counts db1.datasets rid 1 0 }
  checkAndUpdateDatasetCompletion db2 rid now

/-- Failure path (both versions): row update, failure-counter increment,
dataset-completion check. -/
def applyFailure (p : Payload) (db : DB) (call : Call) (now : Nat) : DB :=
  let rid := resolvedDatasetId p call
  let db1 := { db with calls := updateCalls db.calls call.id (fun c => failureUpdate p c now) }
  let db2 := { db1 with datasets := increment_dataset_counts db1.datasets rid 0 1 }
  checkAndUpdateDatasetCompletion db2 rid now

/-- Completion path of the second webhook version. -/
def applyCompletionV2 (p : Payload) (db : DB) (call : Call) (now : Nat) : DB :=
  let rid := resolvedDatasetId p call
  let db1 := { db with calls := (updateCalls db.calls call.id
      (fun c => completionUpdateV2 p c now)) }
  let db2 := { db1 with datasets := increment_dataset_counts db1.datasets rid 1 0 }
  checkAndUpdateDatasetCompletion db2 rid now

/-- First webhook version (subverse-webhook/index.ts, first `serve` block):
resolve the call, then handle exact-match completion and failure events,
skipping already-terminal calls with a `skipped/already_terminal` 200.  The
two event lists are disjoint exact-match lists, so the two sequential `if`
blocks of the source are embedded as one case split.  OPTIONS/non-POST
handling and the 500 catch-all are outside the embedded request path. -/
def serveV1 (fetch : String → Option CallDetails) (p : Payload) (db : DB) (now : Nat) :
    DB × Resp :=
  match extractCallId p with
  | none => (db, ⟨400, .err "Missing call identifier"⟩)
  | some cid =>
    match findCall db.calls cid with
    | none => (db, ⟨404, .err "Call not found"⟩)
    | some call =>
      let eventType := strToLower p.event
      if eventType = "call.completed" ∨ eventType = "call.ended" ∨ eventType = "call_finished" then
        if call.status.isTerminal then
          (db, ⟨200, .ok true (some "already_terminal")⟩)
        else
          (applyCompletionV1 fetch p db call now, ⟨200, .ok false none⟩)
      else if eventType = "call.failed" ∨ eventType = "call.no_answer" ∨
          eventType = "call.busy" ∨ eventType = "call.canceled" then
        if call.status.isTerminal then
          (db, ⟨200, .ok true (some "already_terminal")⟩)
        else
          (applyFailure p db call now, ⟨200, .ok false none⟩)
      else
        (db, ⟨200, .ok false none⟩)

/-- Second webhook version (subverse-webhook/index.ts, second `serve` block):
resolve the call, then run the transcript, ringing, answered/active,
completion and failure branches in sequence.  Branch guards read the status
snapshot taken by `findCall`, exactly as the source does; the store updates
apply sequentially.  Transcript, ringing and answered branches carry no
terminal-status guard in the source. -/
def serveV2 (p : Payload) (db : DB) (now : Nat) : DB × Resp :=
  match extractCallId p with
  | none => (db, ⟨400, .err "Missing call identifier"⟩)
  | some cid =>
    match findCall db.calls cid with
    | none => (db, ⟨404, .err "Call not found"⟩)
    | some call =>
      let eventType := strToLower p.event
      let db1 :=
        if eventMatches TRANSCRIPT_EVENTS eventType then
          match extractTranscript p with
          | some t =>
            { db with calls := (updateCalls db.calls call.id
                (fun c => { c with live_transcript := some t, status := .active })) }
          | none => db
        else db
      let db2 :=
        if eventType = "call.ringing" then
          { db1 with calls := updateCalls db1.calls call.id (fun c => { c with status := .ringing }) }
        else db1
      let db3 :=
        if eventType = "call.answered" ∨ eventType = "call.active" then
          { db2 with calls := updateCalls db2.calls call.id (fun c => { c with status := .active }) }
        else db2
      let db4 :=
        if eventMatches COMPLETION_EVENTS eventType then
          if call.status.isTerminal then db3 else applyCompletionV2 p db3 call now
        else db3
      let db5 :=
        if eventMatches FAILURE_EVENTS eventType then
          if call.status.isTerminal then db4 else applyFailure p db4 call now
        else db4
      (db5, ⟨200, .ok false none⟩)

/-- The watchdog deadline of useDispatch.ts: 45 seconds. -/
def STUCK_CALL_TIMEOUT_MS : Nat := 45 * 1000

/-- Stuck-call filter of `reconcileStuckCalls` (useDispatch.ts): a
non-terminal call in `queued` or `ringing` whose elapsed time since
`started_at` (or `created_at` when not started) exceeds the deadline. -/
def isStuckCall (now : Nat) (c : Call) : Bool :=
  if c.status.isTerminal then false
  else
    let startTime : Int := ((c.started_at.getD c.created_at : Nat) : Int)
    let activeTime : Int := (now : Int) - startTime
    (decide (c.status = .queued) || decide (c.status = .ringing)) &&
      decide (activeTime > (STUCK_CALL_TIMEOUT_MS : Int))

/-- Store effect of the stop-call edge function (second version): look the
call up, attempt the provider cancel when a `call_sid` is present (the
`cancelOk` outcome is only logged and has no store effect), then force the
row to `failed`; a missing row is a thrown error with no update. -/
def stopCallServe (db : DB) (call_id : String) (cancelOk : Bool) (now : Nat) : DB :=
  match singleRow (db.calls.filter (fun c => decide (c.id = call_id))) with
  | none => db
  | some _ =>
    let _ := cancelOk
    { db with calls := (updateCalls db.calls call_id (fun c =>
        { c with status := .failed,
                 error_message := some "Stopped by System (Timeout)",
                 completed_at := some now })) }

/-- Per-call cleanup of `reconcileStuckCalls`: invoke stop-call, then force
the local row to `failed` with the timeout message (the force runs whether or
not the cancel helped). -/
def watchdogCleanupCall (db : DB) (call_id : String) (cancelOk : Bool) (now : Nat) : DB :=
  let db1 := stopCallServe db call_id cancelOk now
  { db1 with calls := (updateCalls db1.calls call_id (fun c =>
      { c with status := .failed,
               error_message := some "Timeout (45s Limit)",
               completed_at := some now })) }

/-- One watchdog sweep (`reconcileStuckCalls`, useDispatch.ts): filter the
stuck calls and clean each up.  The source's `Promise.all` over per-call
updates keyed on distinct ids is embedded as a left fold. -/
def reconcileStuckCalls (db : DB) (now : Nat) (cancelOk : String → Bool) : DB :=
  let stuck := db.calls.filter (isStuckCall now)
  stuck.foldl (fun acc c => watchdogCleanupCall acc c.id (cancelOk c.id) now) db

/-- The emergency-stop row update: `canceled` with the stop message — and no
`completed_at`. -/
def cancelUpdate (c : Call) : Call :=
  { c with status := .canceled, error_message := some "Emergency stop triggered" }

/-- Emergency stop (`emergencyStop`, part_001): fire-and-forget provider
cancels for ringing/active calls (not awaited, no awaited store effect), then
mark the dataset `failed` with `completed_at` and bulk-update every
queued/ringing/active call of the dataset to `canceled` — with no
`completed_at` and no counter increment. -/
def emergencyStop (db : DB) (datasetId : String) (now : Nat) : DB :=
  let dss := updateDatasets db.datasets datasetId
    (fun d => { d with status := "failed", completed_at := some now })
  let cs := db.calls.map (fun c =>
    if c.dataset_id = datasetId ∧ (c.status = .queued ∨ c.status = .ringing ∨ c.status = .active) then
      cancelUpdate c
    else c)
  { calls := cs, datasets := dss }

/-- Outcome of the provider call-trigger request, supplied by an oracle keyed
on the internal call id: the parsed `callId || callSid || call_id || null` on
success, the thrown error message on a non-2xx response. -/
inductive TriggerResult
  | ok (call_sid : Option String)
  | err (msg : String)
deriving DecidableEq

/-- Per-call body of the trigger-calls loop (part_008): mark `ringing` with
`started_at`, call the provider, then either mark `active` storing the
`call_sid`, or — in the catch block — mark `failed` with the error message and
`completed_at` and increment the dataset failure counter. -/
def triggerCallStep (trigger : String → TriggerResult) (dataset_id : String) (now : Nat)
    (db : DB) (c : Call) : DB :=
  let dbR := { db with calls := (updateCalls db.calls c.id
      (fun x => { x with status := .ringing, started_at := some now })) }
  match trigger c.id with
  | .ok sid =>
    { dbR with calls := (updateCalls dbR.calls c.id
        (fun x => { x with status := .active, call_sid := sid })) }
  | .err msg =>
    let db1 := { dbR with calls := (updateCalls dbR.calls c.id
        (fun x => { x with status := .failed, error_message := some msg, completed_at := some now })) }
    { db1 with datasets := increment_dataset_counts db1.datasets dataset_id 0 1 }

/-- Creation-time order used by the trigger-calls fetch. -/
def createdLe (a b : Call) : Prop := a.created_at ≤ b.created_at

instance : DecidableRel createdLe := fun a b => Nat.decLe a.created_at b.created_at

instance : IsTotal Call createdLe := ⟨fun a b => Nat.le_total a.created_at b.created_at⟩

instance : IsTrans Call createdLe := ⟨fun _ _ _ hab hbc => Nat.le_trans hab hbc⟩

/-- The trigger-calls fetch: the queued calls of the dataset ordered by
`created_at` ascending (a stable sort models the store's ORDER BY). -/
def fetchQueuedCalls (db : DB) (dataset_id : String) : List Call :=
  (db.calls.filter (fun c => decide (c.dataset_id = dataset_id) && decide (c.status = .queued))).insertionSort
    createdLe

/-- Store effect of the trigger-calls function (part_008): process each
fetched queued call in turn; the per-call try/catch isolates failures, so the
loop is a plain fold over the whole fetched list. -/
def triggerCallsServe (trigger : String → TriggerResult) (db : DB) (dataset_id : String)
    (now : Nat) : DB :=
  (fetchQueuedCalls db dataset_id).foldl (triggerCallStep trigger dataset_id now) db

/-! Concrete stores, payloads and oracles used to evaluate the embedded code
on specific inputs. -/

/-- An active call resolved by its external id. -/
def exCall1 : Call := { id := "B1", dataset_id := "d1", call_sid := some "ext2", status := .active }

/-- A one-call batch mid-execution. -/
def exDb1 : DB :=
  { calls := [exCall1]
    datasets := [{ id := "d1", status := "executing", total_calls := 1 }] }

/-- A completion webhook payload carrying a transcript and a duration. -/
def exPayloadDone : Payload :=
  { event := "call.completed", callId := some "ext2", transcript := some "hello", duration := some 30 }

/-- A call already in terminal status `completed`. -/
def exCall2 : Call :=
  { id := "A", dataset_id := "d1", call_sid := some "ext1", status := .completed, completed_at := some 10 }

/-- A batch whose single call is already completed. -/
def exDb2 : DB :=
  { calls := [exCall2]
    datasets := [{ id := "d1", status := "completed", total_calls := 1, successful_calls := 1,
                   completed_at := some 10 }] }

/-- A ringing event for the completed call. -/
def exPayloadRinging : Payload := { event := "call.ringing", callId := some "ext1" }

/-- A transcript-chunk event for the completed call. -/
def exPayloadChunk : Payload := { event := "call.transcript", callId := some "ext1", transcript := some "hi" }

/-- A batch already completed at time 1. -/
def exDb3 : DB :=
  { calls := [{ id := "A", dataset_id := "d1", status := .completed, completed_at := some 1 }]
    datasets := [{ id := "d1", status := "completed", total_calls := 1, successful_calls := 1,
                   completed_at := some 1 }] }

/-- A one-call batch whose call has been queued since time 0. -/
def exDb4 : DB :=
  { calls := [{ id := "S", dataset_id := "d1", status := .queued, created_at := 0 }]
    datasets := [{ id := "d1", status := "executing", total_calls := 1 }] }

/-- A call active since time 0. -/
def exCallActive : Call := { id := "X", dataset_id := "d1", status := .active, started_at := some 0 }

/-- A batch whose single call is long-running active. -/
def exDb5 : DB :=
  { calls := [exCallActive]
    datasets := [{ id := "d1", status := "executing", total_calls := 1 }] }

/-- First queued call of the emergency-stop batch. -/
def exCall6A : Call := { id := "A", dataset_id := "d1", status := .queued }

/-- Second queued call of the emergency-stop batch. -/
def exCall6B : Call := { id := "B", dataset_id := "d1", status := .queued }

/-- A two-call batch with both calls queued. -/
def exDb6 : DB :=
  { calls := [exCall6A, exCall6B]
    datasets := [{ id := "d1", status := "executing", total_calls := 2 }] }

/-- A payload with no usable call identifier. -/
def exPayloadNoId : Payload := { event := "call.completed" }

/-- A payload whose identifier resolves to no known call. -/
def exPayloadGhost : Payload := { event := "call.completed", callId := some "ghost" }

/-- A batch with one active call for the response-shape checks. -/
def exDb7 : DB :=
  { calls := [{ id := "A", dataset_id := "d1", call_sid := some "ext1", status := .active }]
    datasets := [{ id := "d1", status := "executing", total_calls := 1 }] }

/-- A resolvable ringing payload for the response-shape checks. -/
def exPayloadRingOk : Payload := { event := "call.ringing", callId := some "ext1" }

/-- A payload carrying only a registration number, no call identifier. -/
def exPayloadRegOnly : Payload := { event := "call.completed", meta_reg_no := some "KA01AB1234" }

/-- A batch with one non-terminal call matching that registration number. -/
def exDb8 : DB :=
  { calls := [{ id := "R", dataset_id := "d1", reg_no := "KA01AB1234", status := .queued }]
    datasets := [{ id := "d1", status := "executing", total_calls := 1 }] }

/-- A payload carrying both a metadata call id and a top-level alias. -/
def exPayloadMeta : Payload :=
  { event := "call.completed", meta_call_id := some "meta1", callId := some "top1" }

/-- A batch with one queued call, no completed_at. -/
def exDb9 : DB :=
  { calls := [{ id := "B", dataset_id := "d1", status := .queued }]
    datasets := [{ id := "d1", status := "executing", total_calls := 1 }] }

/-- Queued call created later (id A). -/
def exCall10A : Call := { id := "A", dataset_id := "d1", status := .queued, created_at := 2 }

/-- Queued call created earlier (id B). -/
def exCall10B : Call := { id := "B", dataset_id := "d1", status := .queued, created_at := 1 }

/-- A two-call batch for the trigger loop. -/
def exDb10 : DB :=
  { calls := [exCall10A, exCall10B]
    datasets := [{ id := "d1", status := "executing", total_calls := 2 }] }

/-- A trigger oracle failing call A and succeeding call B. -/
def exTrigger : String → TriggerResult :=
  fun i => if i = "A" then .err "Subverse API error: 500 - boom" else .ok (some "sidB")

/-! Generic transport lemmas about keyed row updates of the store. -/

/-- Filtering commutes with a map that does not change the filter verdict. -/
theorem filter_map_pred_inv {α : Type} (g : α → α) (p : α → Bool) (hp : ∀ a, p (g a) = p a) :
    ∀ l : List α, (l.map g).filter p = (l.filter p).map g := by
  intro l
  induction l with
  | nil => rfl
  | cons a t ih =>
    simp only [List.map_cons, List.filter_cons, hp a]
    cases h : p a <;> simp [ih]

/-- Lookup commutes with a map that does not change the lookup verdict. -/
theorem find?_map_pred_inv {α : Type} (g : α → α) (p : α → Bool) (hp : ∀ a, p (g a) = p a) :
    ∀ l : List α, (l.map g).find? p = (l.find? p).map g := by
  intro l
  induction l with
  | nil => rfl
  | cons a t ih =>
    simp only [List.map_cons, List.find?_cons, hp a]
    cases h : p a <;> simp [ih]

/-- `.single()` commutes with mapping the row set. -/
theorem singleRow_map (g : Call → Call) (l : List Call) :
    singleRow (l.map g) = (singleRow l).map g := by
  match l with
  | [] => rfl
  | [c] => rfl
  | c1 :: c2 :: t => rfl

/-- A keyed row update leaves lookups at other keys unchanged. -/
theorem getCall_updateCalls (l : List Call) (tid j : String) (g : Call → Call)
    (hid : ∀ c, (g c).id = c.id) :
    (updateCalls l tid g).find? (fun c => decide (c.id = j)) =
      ((l.find? (fun c => decide (c.id = j))).map (fun c => if c.id = tid then g c else c)) := by
  unfold updateCalls
  apply find?_map_pred_inv
  intro c
  by_cases h : c.id = tid <;> simp [h, hid]

/-- Lookup at a key other than the updated one is unchanged. -/
theorem getCall_updateCalls_ne (l : List Call) (tid j : String) (g : Call → Call)
    (hid : ∀ c, (g c).id = c.id) (hne : j ≠ tid) :
    (updateCalls l tid g).find? (fun c => decide (c.id = j)) =
      l.find? (fun c => decide (c.id = j)) := by
  rw [getCall_updateCalls l tid j g hid]
  cases hfound : l.find? (fun c => decide (c.id = j)) with
  | none => rfl
  | some c =>
    have hc := List.find?_some hfound
    have hcj : c.id = j := of_decide_eq_true hc
    have : ¬ c.id = tid := by rw [hcj]; exact hne
    simp [this]

/-- Lookup at the updated key sees the update applied. -/
theorem getCall_updateCalls_eq (l : List Call) (tid : String) (g : Call → Call)
    (hid : ∀ c, (g c).id = c.id) :
    (updateCalls l tid g).find? (fun c => decide (c.id = tid)) =
      (l.find? (fun c => decide (c.id = tid))).map g := by
  rw [getCall_updateCalls l tid tid g hid]
  cases hfound : l.find? (fun c => decide (c.id = tid)) with
  | none => rfl
  | some c =>
    have hc := List.find?_some hfound
    have hcj : c.id = tid := of_decide_eq_true hc
    simp [hcj]

/-- A keyed dataset update leaves lookups unchanged up to the update function. -/
theorem getDataset_updateDatasets (l : List Dataset) (tid j : String) (g : Dataset → Dataset)
    (hid : ∀ d, (g d).id = d.id) :
    (updateDatasets l tid g).find? (fun d => decide (d.id = j)) =
      ((l.find? (fun d => decide (d.id = j))).map (fun d => if d.id = tid then g d else d)) := by
  unfold updateDatasets
  apply find?_map_pred_inv
  intro d
  by_cases h : d.id = tid <;> simp [h, hid]

/-- `findCall` resolves through a keyed update that changes neither ids nor
external sids, and sees the update applied to the resolved row. -/
theorem findCall_updateCalls (l : List Call) (tid cid : String) (g : Call → Call)
    (hid : ∀ c, (g c).id = c.id) (hsid : ∀ c, (g c).call_sid = c.call_sid) :
    findCall (updateCalls l tid g) cid =
      (findCall l cid).map (fun c => if c.id = tid then g c else c) := by
  have h1 : ∀ c : Call,
      (decide ((if c.id = tid then g c else c).id = cid)) = decide (c.id = cid) := by
    intro c; by_cases h : c.id = tid <;> simp [h, hid]
  have h2 : ∀ c : Call,
      (decide ((if c.id = tid then g c else c).call_sid = some cid)) =
        decide (c.call_sid = some cid) := by
    intro c; by_cases h : c.id = tid <;> simp [h, hsid]
  unfold findCall updateCalls
  rw [filter_map_pred_inv _ _ h1, filter_map_pred_inv _ _ h2, singleRow_map, singleRow_map]
  split
  · cases singleRow (l.filter fun c => decide (c.id = cid)) <;> simp
  · rfl

/-- The completion check never touches the calls table. -/
theorem calls_checkCompletion (db : DB) (did : String) (now : Nat) :
    (checkAndUpdateDatasetCompletion db did now).calls = db.calls := by
  simp only [checkAndUpdateDatasetCompletion]
  split <;> rfl

/-- The completion check never changes the counters of any dataset. -/
theorem counters_checkCompletion (db : DB) (did q : String) (now : Nat) :
    (getDataset (checkAndUpdateDatasetCompletion db did now) q).map
        (fun d => (d.successful_calls, d.failed_calls)) =
      (getDataset db q).map (fun d => (d.successful_calls, d.failed_calls)) := by
  simp only [checkAndUpdateDatasetCompletion, getDataset]
  split
  · dsimp only
    rw [getDataset_updateDatasets]
    · cases h : db.datasets.find? (fun d => decide (d.id = q)) with
      | none => rfl
      | some d =>
        simp only [Option.map_some']
        split <;> rfl
    · intro d; rfl
  · rfl

/-- The counter RPC adds the deltas to the addressed dataset's counters. -/
theorem getDataset_increment (dss : List Dataset) (rid : String) (ps pf : Nat) :
    (increment_dataset_counts dss rid ps pf).find? (fun d => decide (d.id = rid)) =
      (dss.find? (fun d => decide (d.id = rid))).map
        (fun d => { d with successful_calls := d.successful_calls + ps,
                           failed_calls := d.failed_calls + pf }) := by
  unfold increment_dataset_counts
  rw [getDataset_updateDatasets]
  · cases hfound : dss.find? (fun d => decide (d.id = rid)) with
    | none => rfl
    | some d =>
      have hd := List.find?_some hfound
      have hdr : d.id = rid := of_decide_eq_true hd
      simp [hdr]
  · intro d; rfl

/-! Unfolding lemmas for the two webhook handlers. -/

/-- On a resolved, non-terminal call, a completion event takes the first
handler through its completion path. -/
theorem serveV1_completion_step (fetch : String → Option CallDetails) (p : Payload) (db : DB)
    (now : Nat) (cid : String) (call : Call)
    (hcid : extractCallId p = some cid)
    (hfind : findCall db.calls cid = some call)
    (hev : strToLower p.event = "call.completed" ∨ strToLower p.event = "call.ended" ∨
      strToLower p.event = "call_finished")
    (hnt : call.status.isTerminal = false) :
    serveV1 fetch p db now = (applyCompletionV1 fetch p db call now, ⟨200, .ok false none⟩) := by
  simp only [serveV1, hcid, hfind]
  rw [if_pos hev, if_neg (by simp [hnt])]

/-- On a resolved, already-terminal call, a completion event makes the first
handler answer the skip response without touching the store. -/
theorem serveV1_completion_skip (fetch : String → Option CallDetails) (p : Payload) (db : DB)
    (now : Nat) (cid : String) (call : Call)
    (hcid : extractCallId p = some cid)
    (hfind : findCall db.calls cid = some call)
    (hev : strToLower p.event = "call.completed" ∨ strToLower p.event = "call.ended" ∨
      strToLower p.event = "call_finished")
    (ht : call.status.isTerminal = true) :
    serveV1 fetch p db now = (db, ⟨200, .ok true (some "already_terminal")⟩) := by
  simp only [serveV1, hcid, hfind]
  rw [if_pos hev, if_pos ht]

/-- The completion path of the first handler updates exactly the resolved
call's row in the calls table. -/
theorem applyCompletionV1_calls (fetch : String → Option CallDetails) (p : Payload) (db : DB)
    (call : Call) (now : Nat) :
    (applyCompletionV1 fetch p db call now).calls =
      updateCalls db.calls call.id (fun c => completionUpdateV1 fetch p c now) := by
  simp only [applyCompletionV1]
  rw [calls_checkCompletion]

/-- The completion path of the first handler adds exactly one success to the
resolved dataset's counters. -/
theorem applyCompletionV1_counters (fetch : String → Option CallDetails) (p : Payload) (db : DB)
    (call : Call) (now : Nat) :
    (getDataset (applyCompletionV1 fetch p db call now) (resolvedDatasetId p call)).map
        (fun d => (d.successful_calls, d.failed_calls)) =
      (getDataset db (resolvedDatasetId p call)).map
        (fun d => (d.successful_calls + 1, d.failed_calls)) := by
  simp only [applyCompletionV1]
  rw [counters_checkCompletion]
  simp only [getDataset]
  rw [getDataset_increment]
  cases h : db.datasets.find? (fun d => decide (d.id = resolvedDatasetId p call)) <;> simp

/-- The first handler's completion update leaves the row resolvable and
marks it `completed`. -/
theorem findCall_applyCompletionV1 (fetch : String → Option CallDetails) (p : Payload) (db : DB)
    (call : Call) (now : Nat) (cid : String)
    (hfind : findCall db.calls cid = some call) :
    findCall (applyCompletionV1 fetch p db call now).calls cid =
      some (completionUpdateV1 fetch p call now) := by
  rw [applyCompletionV1_calls, findCall_updateCalls]
  · rw [hfind]; simp
  · intro c; rfl
  · intro c; rfl

/-- The completion update always produces a `completed` row. -/
theorem completionUpdateV1_status (fetch : String → Option CallDetails) (p : Payload)
    (c : Call) (now : Nat) : (completionUpdateV1 fetch p c now).status = .completed := rfl

/-- On a resolved, non-terminal call, an event matching only the completion
list takes the second handler through its completion path. -/
theorem serveV2_completion_step (p : Payload) (db : DB) (now : Nat) (cid : String) (call : Call)
    (hcid : extractCallId p = some cid)
    (hfind : findCall db.calls cid = some call)
    (hT : eventMatches TRANSCRIPT_EVENTS (strToLower p.event) = false)
    (hR : ¬ strToLower p.event = "call.ringing")
    (hA : ¬ (strToLower p.event = "call.answered" ∨ strToLower p.event = "call.active"))
    (hC : eventMatches COMPLETION_EVENTS (strToLower p.event) = true)
    (hF : eventMatches FAILURE_EVENTS (strToLower p.event) = false)
    (hnt : call.status.isTerminal = false) :
    serveV2 p db now = (applyCompletionV2 p db call now, ⟨200, .ok false none⟩) := by
  simp only [serveV2, hcid, hfind]
  rw [if_neg (by simp [hF]), if_pos hC, if_neg (by simp [hnt]), if_neg hA, if_neg hR,
    if_neg (by simp [hT])]

/-- On a resolved, already-terminal call, an event matching only the
completion list leaves the second handler's store untouched and answers a
success body. -/
theorem serveV2_completion_skip (p : Payload) (db : DB) (now : Nat) (cid : String) (call : Call)
    (hcid : extractCallId p = some cid)
    (hfind : findCall db.calls cid = some call)
    (hT : eventMatches TRANSCRIPT_EVENTS (strToLower p.event) = false)
    (hR : ¬ strToLower p.event = "call.ringing")
    (hA : ¬ (strToLower p.event = "call.answered" ∨ strToLower p.event = "call.active"))
    (hC : eventMatches COMPLETION_EVENTS (strToLower p.event) = true)
    (hF : eventMatches FAILURE_EVENTS (strToLower p.event) = false)
    (ht : call.status.isTerminal = true) :
    serveV2 p db now = (db, ⟨200, .ok false none⟩) := by
  simp only [serveV2, hcid, hfind]
  rw [if_neg (by simp [hF]), if_pos hC, if_pos ht, if_neg hA, if_neg hR,
    if_neg (by simp [hT])]

/-- The completion path of the second handler updates exactly the resolved
call's row in the calls table. -/
theorem applyCompletionV2_calls (p : Payload) (db : DB) (call : Call) (now : Nat) :
    (applyCompletionV2 p db call now).calls =
      updateCalls db.calls call.id (fun c => completionUpdateV2 p c now) := by
  simp only [applyCompletionV2]
  rw [calls_checkCompletion]

/-- The completion path of the second handler adds exactly one success to the
resolved dataset's counters. -/
theorem applyCompletionV2_counters (p : Payload) (db : DB) (call : Call) (now : Nat) :
    (getDataset (applyCompletionV2 p db call now) (resolvedDatasetId p call)).map
        (fun d => (d.successful_calls, d.failed_calls)) =
      (getDataset db (resolvedDatasetId p call)).map
        (fun d => (d.successful_calls + 1, d.failed_calls)) := by
  simp only [applyCompletionV2]
  rw [counters_checkCompletion]
  simp only [getDataset]
  rw [getDataset_increment]
  cases h : db.datasets.find? (fun d => decide (d.id = resolvedDatasetId p call)) <;> simp

/-- The second handler's completion update leaves the row resolvable and
marks it `completed`. -/
theorem findCall_applyCompletionV2 (p : Payload) (db : DB) (call : Call) (now : Nat)
    (cid : String) (hfind : findCall db.calls cid = some call) :
    findCall (applyCompletionV2 p db call now).calls cid =
      some (completionUpdateV2 p call now) := by
  rw [applyCompletionV2_calls, findCall_updateCalls]
  · rw [hfind]; simp
  · intro c; rfl
  · intro c; rfl

/-- The second completion update always produces a `completed` row. -/
theorem completionUpdateV2_status (p : Payload) (c : Call) (now : Nat) :
    (completionUpdateV2 p c now).status = .completed := rfl

/-- C1: applying the same canonical completion event twice to a resolved,
non-terminal call leaves the call in the same terminal `completed` state as
after the first application (the second delivery changes nothing in the
store), increments the batch success counter exactly once across the two
deliveries, and the second delivery is answered as
`already_terminal`/skipped by the first handler and as a non-error success
body by the second handler — never as an error. -/
theorem c1_completion_idempotent
    (fetch fetch2 : String → Option CallDetails) (p : Payload) (db : DB) (t1 t2 : Nat)
    (cid : String) (call : Call)
    (hcid : extractCallId p = some cid)
    (hfind : findCall db.calls cid = some call)
    (hev : strToLower p.event = "call.completed" ∨ strToLower p.event = "call.ended" ∨
      strToLower p.event = "call_finished")
    (hnt : call.status.isTerminal = false) :
    ((findCall (serveV1 fetch p db t1).1.calls cid).map Call.status = some .completed ∧
      (serveV1 fetch2 p (serveV1 fetch p db t1).1 t2).1 = (serveV1 fetch p db t1).1 ∧
      (getDataset (serveV1 fetch p db t1).1 (resolvedDatasetId p call)).map
          (fun d => (d.successful_calls, d.failed_calls)) =
        (getDataset db (resolvedDatasetId p call)).map
          (fun d => (d.successful_calls + 1, d.failed_calls)) ∧
      (serveV1 fetch2 p (serveV1 fetch p db t1).1 t2).2 =
        ⟨200, .ok true (some "already_terminal")⟩) ∧
    ((findCall (serveV2 p db t1).1.calls cid).map Call.status = some .completed ∧
      (serveV2 p (serveV2 p db t1).1 t2).1 = (serveV2 p db t1).1 ∧
      (getDataset (serveV2 p db t1).1 (resolvedDatasetId p call)).map
          (fun d => (d.successful_calls, d.failed_calls)) =
        (getDataset db (resolvedDatasetId p call)).map
          (fun d => (d.successful_calls + 1, d.failed_calls)) ∧
      (serveV2 p (serveV2 p db t1).1 t2).2 = ⟨200, .ok false none⟩) := by
  have hstep1 := serveV1_completion_step fetch p db t1 cid call hcid hfind hev hnt
  have hfind1 : findCall (applyCompletionV1 fetch p db call t1).calls cid =
      some (completionUpdateV1 fetch p call t1) :=
    findCall_applyCompletionV1 fetch p db call t1 cid hfind
  have hterm1 : (completionUpdateV1 fetch p call t1).status.isTerminal = true := by
    rw [completionUpdateV1_status]; rfl
  have hskip := serveV1_completion_skip fetch2 p (applyCompletionV1 fetch p db call t1) t2 cid
      (completionUpdateV1 fetch p call t1) hcid hfind1 hev hterm1
  have hT : eventMatches TRANSCRIPT_EVENTS (strToLower p.event) = false := by
    rcases hev with h | h | h <;> rw [h] <;> decide
  have hR : ¬ strToLower p.event = "call.ringing" := by
    rcases hev with h | h | h <;> rw [h] <;> decide
  have hA : ¬ (strToLower p.event = "call.answered" ∨ strToLower p.event = "call.active") := by
    rcases hev with h | h | h <;> rw [h] <;> decide
  have hC : eventMatches COMPLETION_EVENTS (strToLower p.event) = true := by
    rcases hev with h | h | h <;> rw [h] <;> decide
  have hF : eventMatches FAILURE_EVENTS (strToLower p.event) = false := by
    rcases hev with h | h | h <;> rw [h] <;> decide
  have hstep2 := serveV2_completion_step p db t1 cid call hcid hfind hT hR hA hC hF hnt
  have hfind2 : findCall (applyCompletionV2 p db call t1).calls cid =
      some (completionUpdateV2 p call t1) :=
    findCall_applyCompletionV2 p db call t1 cid hfind
  have hterm2 : (completionUpdateV2 p call t1).status.isTerminal = true := by
    rw [completionUpdateV2_status]; rfl
  have hskip2 := serveV2_completion_skip p (applyCompletionV2 p db call t1) t2 cid
      (completionUpdateV2 p call t1) hcid hfind2 hT hR hA hC hF hterm2
  refine ⟨⟨?_, ?_, ?_, ?_⟩, ?_, ?_, ?_, ?_⟩
  · rw [hstep1]
    dsimp only
    rw [hfind1]
    simp [completionUpdateV1_status]
  · rw [hstep1]
    dsimp only
    rw [hskip]
  · rw [hstep1]
    dsimp only
    exact applyCompletionV1_counters fetch p db call t1
  · rw [hstep1]
    dsimp only
    rw [hskip]
  · rw [hstep2]
    dsimp only
    rw [hfind2]
    simp [completionUpdateV2_status]
  · rw [hstep2]
    dsimp only
    rw [hskip2]
  · rw [hstep2]
    dsimp only
    exact applyCompletionV2_counters p db call t1
  · rw [hstep2]
    dsimp only
    rw [hskip2]

/-- C1 witness: a concrete duplicate completion delivery against a one-call
batch, evaluated on both handlers. -/
theorem c1_completion_idempotent_witness :
    (serveV1 (fun _ => none) exPayloadDone
        (serveV1 (fun _ => none) exPayloadDone exDb1 7).1 8).2 =
      ⟨200, .ok true (some "already_terminal")⟩ ∧
    (serveV2 exPayloadDone (serveV2 exPayloadDone exDb1 7).1 8).1 =
      (serveV2 exPayloadDone exDb1 7).1 := by
  have h := c1_completion_idempotent (fun _ => none) (fun _ => none) exPayloadDone exDb1 7 8
    "ext2" exCall1 (by decide) (by decide) (Or.inl (by decide)) (by decide)
  exact ⟨h.1.2.2.2, h.2.2.1⟩

/-- C2: evaluation of the second webhook handler at a terminal call.  The
call is `completed`, yet a `call.ringing` event moves it back to `ringing`
and a transcript-chunk event moves it to `active` — the transcript, ringing
and answered branches carry no terminal-status guard, so terminal status is
not sticky under them, contradicting the no-illegal-regression property the
completion/failure branches do enforce. -/
theorem c2_terminal_regression_eval :
    ((getCall exDb2 "A").map Call.status = some .completed) ∧
    ((getCall (serveV2 exPayloadRinging exDb2 99).1 "A").map Call.status = some .ringing) ∧
    ((getCall (serveV2 exPayloadChunk exDb2 99).1 "A").map Call.status = some .active) := by
  decide

/-- C3 counterexample: invoking the completion check on an already-completed
batch is not a no-op — it overwrites `completed_at` with the invocation
time. -/
theorem c3_checkCompletion_not_noop_counterex :
    ((getDataset exDb3 "d1").map (fun d => (d.status, d.completed_at)) =
      some ("completed", some 1)) ∧
    ((getDataset (checkAndUpdateDatasetCompletion exDb3 "d1" 2) "d1").map
        (fun d => (d.status, d.completed_at)) = some ("completed", some 2)) ∧
    checkAndUpdateDatasetCompletion exDb3 "d1" 2 ≠ exDb3 := by
  decide

/-- C3 (amended): the completion check transitions the batch to `completed`
exactly when no call of the batch remains non-terminal, and every such
invocation — including re-invocations on an already-completed batch — writes
`status = completed` and `completed_at = now`; it is idempotent in status
but rewrites `completed_at` each time. -/
theorem c3_checkCompletion_amended (db : DB) (did : String) (now : Nat) :
    ((db.calls.filter (fun c => decide (c.dataset_id = did) && !c.status.isTerminal)).isEmpty = false →
      checkAndUpdateDatasetCompletion db did now = db) ∧
    ((db.calls.filter (fun c => decide (c.dataset_id = did) && !c.status.isTerminal)).isEmpty = true →
      (checkAndUpdateDatasetCompletion db did now).calls = db.calls ∧
      getDataset (checkAndUpdateDatasetCompletion db did now) did =
        (getDataset db did).map
          (fun d => { d with status := "completed", completed_at := some now })) := by
  constructor
  · intro h
    simp only [checkAndUpdateDatasetCompletion, h]
    rfl
  · intro h
    constructor
    · exact calls_checkCompletion db did now
    · simp only [checkAndUpdateDatasetCompletion, h, if_true, getDataset]
      rw [getDataset_updateDatasets]
      · cases hfound : db.datasets.find? (fun d => decide (d.id = did)) with
        | none => rfl
        | some d =>
          have hd := List.find?_some hfound
          have hdd : d.id = did := of_decide_eq_true hd
          simp [hdd]
      · intro d; rfl

/-- C3 witness: the amended statement applied to the already-completed batch
at time 2. -/
theorem c3_checkCompletion_amended_witness :
    getDataset (checkAndUpdateDatasetCompletion exDb3 "d1" 2) "d1" =
      (getDataset exDb3 "d1").map
        (fun d => { d with status := "completed", completed_at := some 2 }) :=
  ((c3_checkCompletion_amended exDb3 "d1" 2).2 (by decide)).2

/-- C4: evaluation of the watchdog at a one-call batch whose call has been
queued past the deadline.  The sweep forces the call terminal (`failed`)
without incrementing either counter, so once every call of the batch is
terminal the batch has `successful + failed = 0 ≠ 1 = totalCalls` — the
conservation equality at completion fails for watchdog-resolved calls. -/
theorem c4_watchdog_counter_eval :
    ((getDataset exDb4 "d1").map
      (fun d => (d.successful_calls, d.failed_calls, d.total_calls)) = some (0, 0, 1)) ∧
    (∀ c ∈ (reconcileStuckCalls exDb4 50000 (fun _ => true)).calls, c.status.isTerminal = true) ∧
    ((getDataset (reconcileStuckCalls exDb4 50000 (fun _ => true)) "d1").map
      (fun d => (d.successful_calls + d.failed_calls, d.total_calls)) = some (0, 1)) := by
  decide

/-- C5 counterexample: a long-running `active` call past the 45 s deadline is
not selected by the watchdog sweep — the filter admits only `queued` and
`ringing` — so the sweep leaves the store untouched, although the claim says
every non-terminal call (queued, ringing, or active) past the deadline is
selected and forced to `failed`. -/
theorem c5_active_not_selected_counterex :
    exCallActive.status = .active ∧
    exCallActive.status.isTerminal = false ∧
    ((1000000 : Int) - ((exCallActive.started_at.getD exCallActive.created_at : Nat) : Int) >
      (STUCK_CALL_TIMEOUT_MS : Int)) ∧
    isStuckCall 1000000 exCallActive = false ∧
    reconcileStuckCalls exDb5 1000000 (fun _ => true) = exDb5 := by
  decide

/-- C9: evaluation of the emergency stop at a batch with one queued call.
The call transitions to `canceled` (a terminal status) while its
`completed_at` stays `null`, violating the invariant that `completedAt` is
non-null iff the status is terminal — the emergency-stop update sets no
`completed_at` on the calls it cancels. -/
theorem c9_emergency_stop_completedAt_eval :
    ((getCall exDb9 "B").map (fun c => (c.status, c.completed_at)) =
      some (.queued, none)) ∧
    ((getCall (emergencyStop exDb9 "d1" 5) "B").map
        (fun c => (c.status, c.status.isTerminal, c.completed_at)) =
      some (.canceled, true, none)) := by
  decide

/-! Keyed-fold machinery: the watchdog sweep and the trigger loop both fold a
per-call step over a list of rows with distinct ids, each step touching only
the rows with the step's id. -/

/-- The stop-call function leaves rows with other ids unchanged. -/
theorem stopCall_keep (db : DB) (cid j : String) (ck : Bool) (now : Nat) (hne : j ≠ cid) :
    getCall (stopCallServe db cid ck now) j = getCall db j := by
  simp only [stopCallServe]
  cases h : singleRow (db.calls.filter (fun c => decide (c.id = cid))) with
  | none => rfl
  | some c =>
    simp only [getCall]
    exact getCall_updateCalls_ne db.calls cid j _ (fun c => rfl) hne

/-- The per-call watchdog cleanup leaves rows with other ids unchanged. -/
theorem cleanup_keep (db : DB) (cid j : String) (ck : Bool) (now : Nat) (hne : j ≠ cid) :
    getCall (watchdogCleanupCall db cid ck now) j = getCall db j := by
  simp only [watchdogCleanupCall, getCall]
  rw [getCall_updateCalls_ne]
  · exact stopCall_keep db cid j ck now hne
  · intro c; rfl
  · exact hne

/-- The per-call watchdog cleanup unconditionally forces the row with its id
to `failed` with the timeout message, whatever the cancel outcome was. -/
theorem cleanup_force (db : DB) (cid : String) (ck : Bool) (now : Nat) (x : Call)
    (hx : getCall db cid = some x) :
    ∃ y, getCall (watchdogCleanupCall db cid ck now) cid = some y ∧
      y.status = .failed ∧ y.error_message = some "Timeout (45s Limit)" ∧
      y.completed_at = some now := by
  have hsome : ∃ x1, getCall (stopCallServe db cid ck now) cid = some x1 := by
    simp only [stopCallServe]
    cases h : singleRow (db.calls.filter (fun c => decide (c.id = cid))) with
    | none => exact ⟨x, hx⟩
    | some c =>
      simp only [getCall]
      rw [getCall_updateCalls_eq]
      · rw [show db.calls.find? (fun c => decide (c.id = cid)) = some x from hx]
        exact ⟨_, rfl⟩
      · intro c; rfl
  obtain ⟨x1, hx1⟩ := hsome
  refine ⟨{ x1 with
      status := .failed
      error_message := some "Timeout (45s Limit)"
      completed_at := some now }, ?_, rfl, rfl, rfl⟩
  simp only [watchdogCleanupCall, getCall]
  rw [getCall_updateCalls_eq]
  · rw [show (stopCallServe db cid ck now).calls.find? (fun c => decide (c.id = cid)) =
      some x1 from hx1]
    rfl
  · intro c; rfl

/-- A fold of keyed steps leaves a row unchanged when no step carries its id. -/
theorem foldl_keep (step : DB → Call → DB)
    (keep : ∀ db c j, j ≠ c.id → getCall (step db c) j = getCall db j) :
    ∀ (t : List Call) (db : DB) (j : String), (∀ c ∈ t, j ≠ c.id) →
      getCall (t.foldl step db) j = getCall db j := by
  intro t
  induction t with
  | nil => intro db j _; rfl
  | cons b u ih =>
    intro db j hj
    rw [List.foldl_cons, ih (step db b) j (fun c hc => hj c (List.mem_cons_of_mem b hc)),
      keep db b j (hj b (List.mem_cons_self b u))]

/-- A fold of keyed steps over rows with distinct ids gives every processed
row the state its own step forces. -/
theorem foldl_keyed (step : DB → Call → DB) (Φ : Call → Call → Prop)
    (keep : ∀ db c j, j ≠ c.id → getCall (step db c) j = getCall db j)
    (force : ∀ db c x, getCall db c.id = some x →
      ∃ y, getCall (step db c) c.id = some y ∧ Φ c y) :
    ∀ (l : List Call) (db : DB), (l.map Call.id).Nodup →
      (∀ c ∈ l, (getCall db c.id).isSome = true) →
      ∀ c ∈ l, ∃ y, getCall (l.foldl step db) c.id = some y ∧ Φ c y := by
  intro l
  induction l with
  | nil => intro db _ _ c hc; cases hc
  | cons a t ih =>
    intro db hnd hsome c hc
    have hna : a.id ∉ t.map Call.id := (List.nodup_cons.mp hnd).1
    have hndt : (t.map Call.id).Nodup := (List.nodup_cons.mp hnd).2
    rw [List.foldl_cons]
    rcases List.mem_cons.mp hc with rfl | hct
    · obtain ⟨x, hxa⟩ := Option.isSome_iff_exists.mp (hsome c (List.mem_cons_self c t))
      obtain ⟨y, hy, hΦ⟩ := force db c x hxa
      refine ⟨y, ?_, hΦ⟩
      rw [foldl_keep step keep t (step db c) c.id ?_, hy]
      intro c' hc' he
      apply hna
      rw [he]
      exact List.mem_map_of_mem Call.id hc'
    · apply ih (step db a) hndt ?_ c hct
      intro c' hc'
      have hne : c'.id ≠ a.id := by
        intro he
        exact hna (by rw [← he]; exact List.mem_map_of_mem Call.id hc')
      rw [keep db a c'.id hne]
      exact hsome c' (List.mem_cons_of_mem a hc')

/-- C5 (amended): each watchdog sweep selects exactly the calls whose status
is `queued` or `ringing` and whose elapsed time since `started_at` (or
`created_at` if not yet started) exceeds the 45 s deadline — `active` calls
are never selected — and every selected call is forced to `failed` with the
timeout error message, whatever the best-effort provider cancel returned. -/
theorem c5_watchdog_amended (db : DB) (now : Nat) (cancelOk : String → Bool)
    (hnd : (db.calls.map Call.id).Nodup) :
    (∀ c, isStuckCall now c = true ↔
      ((c.status = .queued ∨ c.status = .ringing) ∧
        (now : Int) - ((c.started_at.getD c.created_at : Nat) : Int) >
          (STUCK_CALL_TIMEOUT_MS : Int))) ∧
    (∀ c ∈ db.calls, isStuckCall now c = true →
      ∃ y, getCall (reconcileStuckCalls db now cancelOk) c.id = some y ∧
        y.status = .failed ∧ y.error_message = some "Timeout (45s Limit)" ∧
        y.completed_at = some now) := by
  constructor
  · intro c
    cases hs : c.status <;>
      simp [isStuckCall, hs, CallStatus.isTerminal]
  · intro c hc hstuck
    have hmem : c ∈ db.calls.filter (isStuckCall now) := List.mem_filter.mpr ⟨hc, hstuck⟩
    have hnd2 : ((db.calls.filter (isStuckCall now)).map Call.id).Nodup :=
      List.Nodup.sublist (List.Sublist.map Call.id (List.filter_sublist _)) hnd
    have hsome : ∀ c' ∈ db.calls.filter (isStuckCall now),
        (getCall db c'.id).isSome = true := by
      intro c' hc'
      exact List.find?_isSome.mpr ⟨c', List.mem_of_mem_filter hc', by simp⟩
    exact foldl_keyed _ (fun _ y => y.status = .failed ∧
        y.error_message = some "Timeout (45s Limit)" ∧ y.completed_at = some now)
      (fun acc a j hne => cleanup_keep acc a.id j (cancelOk a.id) now hne)
      (fun acc a x hx => cleanup_force acc a.id (cancelOk a.id) now x hx)
      _ db hnd2 hsome c hmem

/-- C5 witness: the amended statement applied to a queued call stuck since
time 0, swept at 50 s. -/
theorem c5_watchdog_amended_witness :
    ∃ y, getCall (reconcileStuckCalls exDb4 50000 (fun _ => true)) "S" = some y ∧
      y.status = .failed ∧ y.error_message = some "Timeout (45s Limit)" ∧
      y.completed_at = some 50000 := by
  have h := (c5_watchdog_amended exDb4 50000 (fun _ => true) (by decide)).2
    { id := "S", dataset_id := "d1", status := .queued, created_at := 0 }
    (by decide) (by decide)
  exact h

/-- A trigger-loop iteration leaves rows with other ids unchanged. -/
theorem triggerStep_keep (trigger : String → TriggerResult) (did : String) (now : Nat)
    (db : DB) (c : Call) (j : String) (hne : j ≠ c.id) :
    getCall (triggerCallStep trigger did now db c) j = getCall db j := by
  simp only [triggerCallStep]
  cases htr : trigger c.id with
  | ok sid =>
    simp only [getCall]
    rw [getCall_updateCalls_ne]
    · rw [getCall_updateCalls_ne]
      · intro c; rfl
      · exact hne
    · intro c; rfl
    · exact hne
  | err msg =>
    simp only [getCall]
    rw [getCall_updateCalls_ne]
    · rw [getCall_updateCalls_ne]
      · intro c; rfl
      · exact hne
    · intro c; rfl
    · exact hne

/-- A trigger-loop iteration gives its own call the outcome its provider
response dictates: `active` with the stored sid on success, `failed` with the
thrown message and `completed_at` in the catch block. -/
theorem triggerStep_force (trigger : String → TriggerResult) (did : String) (now : Nat)
    (db : DB) (c : Call) (x : Call) (hx : getCall db c.id = some x) :
    ∃ y, getCall (triggerCallStep trigger did now db c) c.id = some y ∧
      (match trigger c.id with
       | .ok sid => y.status = .active ∧ y.call_sid = sid
       | .err msg => y.status = .failed ∧ y.error_message = some msg ∧
           y.completed_at = some now) := by
  simp only [triggerCallStep]
  cases htr : trigger c.id with
  | ok sid =>
    simp only [getCall]
    rw [getCall_updateCalls_eq]
    · rw [getCall_updateCalls_eq]
      · rw [show db.calls.find? (fun c' => decide (c'.id = c.id)) = some x from hx]
        exact ⟨_, rfl, rfl, rfl⟩
      · intro c; rfl
    · intro c; rfl
  | err msg =>
    simp only [getCall]
    rw [getCall_updateCalls_eq]
    · rw [getCall_updateCalls_eq]
      · rw [show db.calls.find? (fun c' => decide (c'.id = c.id)) = some x from hx]
        exact ⟨_, rfl, rfl, rfl, rfl⟩
      · intro c; rfl
    · intro c; rfl

/-- C10: the trigger loop fetches the batch's queued calls ordered by
creation time and attempts every one of them; a trigger-level error for one
call marks that call `failed` with its error message and does not abort the
loop — every other queued call still ends in the state its own provider
response dictates. -/
theorem c10_isolate_and_continue (trigger : String → TriggerResult) (db : DB)
    (did : String) (now : Nat) (hnd : (db.calls.map Call.id).Nodup) :
    List.Sorted createdLe (fetchQueuedCalls db did) ∧
    (∀ c ∈ fetchQueuedCalls db did, c.dataset_id = did ∧ c.status = .queued) ∧
    (∀ c ∈ fetchQueuedCalls db did, ∀ msg, trigger c.id = .err msg →
      ∃ y, getCall (triggerCallsServe trigger db did now) c.id = some y ∧
        y.status = .failed ∧ y.error_message = some msg ∧ y.completed_at = some now) ∧
    (∀ c ∈ fetchQueuedCalls db did, ∀ sid, trigger c.id = .ok sid →
      ∃ y, getCall (triggerCallsServe trigger db did now) c.id = some y ∧
        y.status = .active ∧ y.call_sid = sid) := by
  have hperm := List.perm_insertionSort createdLe
    (db.calls.filter (fun c => decide (c.dataset_id = did) && decide (c.status = .queued)))
  have hmemiff : ∀ c, c ∈ fetchQueuedCalls db did ↔
      c ∈ db.calls.filter (fun c => decide (c.dataset_id = did) && decide (c.status = .queued)) :=
    fun c => hperm.mem_iff
  have hmain : ∀ c ∈ fetchQueuedCalls db did,
      ∃ y, getCall (triggerCallsServe trigger db did now) c.id = some y ∧
        (match trigger c.id with
         | .ok sid => y.status = .active ∧ y.call_sid = sid
         | .err msg => y.status = .failed ∧ y.error_message = some msg ∧
             y.completed_at = some now) := by
    have hfil : ((db.calls.filter
        (fun c => decide (c.dataset_id = did) && decide (c.status = .queued))).map Call.id).Nodup :=
      List.Nodup.sublist (List.Sublist.map Call.id (List.filter_sublist _)) hnd
    have hnd2 : ((fetchQueuedCalls db did).map Call.id).Nodup :=
      ((hperm.map Call.id).nodup_iff).mpr hfil
    have hsome : ∀ c ∈ fetchQueuedCalls db did, (getCall db c.id).isSome = true := by
      intro c hc
      have hcm : c ∈ db.calls := List.mem_of_mem_filter ((hmemiff c).mp hc)
      exact List.find?_isSome.mpr ⟨c, hcm, by simp⟩
    exact fun c hc => foldl_keyed _ _
      (fun acc a j hne => triggerStep_keep trigger did now acc a j hne)
      (fun acc a x hx => triggerStep_force trigger did now acc a x hx)
      _ db hnd2 hsome c hc
  refine ⟨List.sorted_insertionSort createdLe _, ?_, ?_, ?_⟩
  · intro c hc
    obtain ⟨-, hpred⟩ := List.mem_filter.mp ((hmemiff c).mp hc)
    rw [Bool.and_eq_true] at hpred
    exact ⟨of_decide_eq_true hpred.1, of_decide_eq_true hpred.2⟩
  · intro c hc msg hmsg
    obtain ⟨y, hy, hΦ⟩ := hmain c hc
    rw [hmsg] at hΦ
    exact ⟨y, hy, hΦ⟩
  · intro c hc sid hsid
    obtain ⟨y, hy, hΦ⟩ := hmain c hc
    rw [hsid] at hΦ
    exact ⟨y, hy, hΦ⟩

/-- C10 witness: a two-call batch where the provider call for A throws and
the one for B succeeds — A is marked failed with its error message, B is
still attempted and goes active. -/
theorem c10_isolate_and_continue_witness :
    (∃ y, getCall (triggerCallsServe exTrigger exDb10 "d1" 3) "A" = some y ∧
      y.status = .failed ∧ y.error_message = some "Subverse API error: 500 - boom" ∧
      y.completed_at = some 3) ∧
    (∃ y, getCall (triggerCallsServe exTrigger exDb10 "d1" 3) "B" = some y ∧
      y.status = .active ∧ y.call_sid = some "sidB") := by
  have h := c10_isolate_and_continue exTrigger exDb10 "d1" 3 (by decide)
  exact ⟨h.2.2.1 exCall10A (by decide) _ (by decide),
    h.2.2.2 exCall10B (by decide) _ (by decide)⟩

/-- C6 counterexample: emergency stop on a batch of two queued calls cancels
both, but the batch's `failed_calls` counter stays 0 instead of counting the
two cancellations — no counter increment exists on the cancellation path. -/
theorem c6_no_counter_increment_counterex :
    (((emergencyStop exDb6 "d1" 5).calls.filter
        (fun c => decide (c.status = .canceled))).length = 2) ∧
    ((getDataset (emergencyStop exDb6 "d1" 5) "d1").map Dataset.failed_calls = some 0) ∧
    ((getDataset exDb6 "d1").map Dataset.total_calls = some 2) := by
  decide

/-- C6 (amended): the emergency stop transitions every queued/ringing/active
call of the batch to `canceled` (with the stop message, without waiting for
any provider acknowledgment) and marks the batch terminal — dataset status
`failed` with `completed_at` set — but increments neither batch counter:
`failedCalls` does not count the cancellations. -/
theorem c6_emergency_stop_amended (db : DB) (did : String) (now : Nat) :
    (∀ c, (cancelUpdate c).status = .canceled ∧
      (cancelUpdate c).error_message = some "Emergency stop triggered" ∧
      (cancelUpdate c).completed_at = c.completed_at) ∧
    (∀ c ∈ db.calls, c.dataset_id = did →
      (c.status = .queued ∨ c.status = .ringing ∨ c.status = .active) →
      cancelUpdate c ∈ (emergencyStop db did now).calls) ∧
    ((getDataset (emergencyStop db did now) did) =
      (getDataset db did).map
        (fun d => { d with status := "failed", completed_at := some now })) ∧
    (∀ q, (getDataset (emergencyStop db did now) q).map
        (fun d => (d.successful_calls, d.failed_calls)) =
      (getDataset db q).map (fun d => (d.successful_calls, d.failed_calls))) := by
  refine ⟨fun c => ⟨rfl, rfl, rfl⟩, ?_, ?_, ?_⟩
  · intro c hc h1 h2
    simp only [emergencyStop]
    refine List.mem_map.mpr ⟨c, hc, ?_⟩
    exact if_pos ⟨h1, h2⟩
  · simp only [emergencyStop, getDataset]
    rw [getDataset_updateDatasets]
    · cases hfound : db.datasets.find? (fun d => decide (d.id = did)) with
      | none => rfl
      | some d =>
        have hd := List.find?_some hfound
        have hdd : d.id = did := of_decide_eq_true hd
        simp [hdd]
    · intro d; rfl
  · intro q
    simp only [emergencyStop, getDataset]
    rw [getDataset_updateDatasets]
    · cases hfound : db.datasets.find? (fun d => decide (d.id = q)) with
      | none => rfl
      | some d =>
        simp only [Option.map_some']
        split <;> rfl
    · intro d; rfl

/-- C6 witness: the amended statement applied to the two-queued-call batch. -/
theorem c6_emergency_stop_amended_witness :
    cancelUpdate exCall6A ∈ (emergencyStop exDb6 "d1" 5).calls ∧
    getDataset (emergencyStop exDb6 "d1" 5) "d1" =
      (getDataset exDb6 "d1").map
        (fun d => { d with status := "failed", completed_at := some 5 }) := by
  have h := c6_emergency_stop_amended exDb6 "d1" 5
  exact ⟨h.2.1 exCall6A (by decide) (by decide) (Or.inl (by decide)), h.2.2.1⟩

/-- A payload with no usable call identifier is answered 400. -/
theorem serveV2_missing_id (p : Payload) (db : DB) (now : Nat)
    (h : extractCallId p = none) :
    serveV2 p db now = (db, ⟨400, .err "Missing call identifier"⟩) := by
  simp only [serveV2, h]

/-- An identifier resolving to no known call is answered 404. -/
theorem serveV2_not_found (p : Payload) (db : DB) (now : Nat) (cid : String)
    (h1 : extractCallId p = some cid) (h2 : findCall db.calls cid = none) :
    serveV2 p db now = (db, ⟨404, .err "Call not found"⟩) := by
  simp only [serveV2, h1, h2]

/-- A resolved event is always answered 200 with the success body. -/
theorem serveV2_resolved_resp (p : Payload) (db : DB) (now : Nat) (cid : String) (call : Call)
    (h1 : extractCallId p = some cid) (h2 : findCall db.calls cid = some call) :
    (serveV2 p db now).2 = ⟨200, .ok false none⟩ := by
  simp only [serveV2, h1, h2]

/-- C7 counterexample: a POST whose payload carries no usable call identifier
is answered 400, and one whose identifier resolves to no known call is
answered 404 — not 200 as the claim states. -/
theorem c7_missing_id_counterex :
    (serveV2 exPayloadNoId exDb7 0).2.status = 400 ∧
    (serveV2 exPayloadGhost exDb7 0).2.status = 404 ∧
    ¬ (400 = 200) ∧ ¬ (404 = 200) := by
  decide

/-- C7 (amended): the webhook answers 200 with a `{success, skipped?,
reason?}` body exactly for payloads that resolve to a known call; a payload
with no usable identifier is answered 400 and an identifier resolving to no
call is answered 404, each with an error body surfaced to the provider. -/
theorem c7_response_amended (p : Payload) (db : DB) (now : Nat) :
    (extractCallId p = none →
      serveV2 p db now = (db, ⟨400, .err "Missing call identifier"⟩)) ∧
    (∀ cid, extractCallId p = some cid → findCall db.calls cid = none →
      serveV2 p db now = (db, ⟨404, .err "Call not found"⟩)) ∧
    (∀ cid call, extractCallId p = some cid → findCall db.calls cid = some call →
      (serveV2 p db now).2 = ⟨200, .ok false none⟩) :=
  ⟨fun h => serveV2_missing_id p db now h,
   fun cid h1 h2 => serveV2_not_found p db now cid h1 h2,
   fun cid call h1 h2 => serveV2_resolved_resp p db now cid call h1 h2⟩

/-- C7 witness: a resolvable ringing payload is answered 200 with the
success body. -/
theorem c7_response_amended_witness :
    (serveV2 exPayloadRingOk exDb7 0).2 = ⟨200, .ok false none⟩ :=
  (c7_response_amended exPayloadRingOk exDb7 0).2.2 "ext1"
    { id := "A", dataset_id := "d1", call_sid := some "ext1", status := .active }
    (by decide) (by decide)

/-- C8 counterexample: a payload carrying neither a metadata call id nor any
top-level id alias, only a registration-number field, is rejected with 400 —
it does not resolve to the unique non-terminal call whose `reg_no` matches,
because no registration-number fallback exists in the resolution code. -/
theorem c8_regno_no_fallback_counterex :
    ((exDb8.calls.filter
        (fun c => decide (c.reg_no = "KA01AB1234") && !c.status.isTerminal)).length = 1) ∧
    extractCallId exPayloadRegOnly = none ∧
    serveV2 exPayloadRegOnly exDb8 7 = (exDb8, ⟨400, .err "Missing call identifier"⟩) := by
  decide

/-- C8 (amended): call identity resolves from (a) the explicit internal id in
provider metadata, then (b) the top-level aliases `callId`, `callSid`,
`call_id` in that order; the resolved identifier is then matched against the
internal id (when UUID-shaped) and the external `call_sid`.  There is no
registration-number fallback: a payload carrying neither (a) nor (b) yields
no identifier and the event is rejected as missing its identifier, whatever
calls the store holds. -/
theorem c8_resolution_amended (p : Payload) (db : DB) (now : Nat) :
    (∀ s, jsStr p.meta_call_id = some s → extractCallId p = some s) ∧
    (jsStr p.meta_call_id = none → ∀ s, jsStr p.callId = some s →
      extractCallId p = some s) ∧
    (jsStr p.meta_call_id = none → jsStr p.callId = none → ∀ s,
      jsStr p.callSid = some s → extractCallId p = some s) ∧
    (jsStr p.meta_call_id = none → jsStr p.callId = none → jsStr p.callSid = none →
      extractCallId p = jsStr p.call_id) ∧
    (jsStr p.meta_call_id = none → jsStr p.callId = none → jsStr p.callSid = none →
      jsStr p.call_id = none →
      serveV2 p db now = (db, ⟨400, .err "Missing call identifier"⟩)) := by
  refine ⟨?_, ?_, ?_, ?_, ?_⟩
  · intro s h
    simp [extractCallId, h, Option.orElse]
  · intro h0 s h
    simp [extractCallId, h0, h, Option.orElse]
  · intro h0 h1 s h
    simp [extractCallId, h0, h1, h, Option.orElse]
  · intro h0 h1 h2
    simp [extractCallId, h0, h1, h2, Option.orElse]
  · intro h0 h1 h2 h3
    apply serveV2_missing_id
    simp [extractCallId, h0, h1, h2, h3, Option.orElse]

/-- C8 witness: the metadata call id wins over a present top-level alias. -/
theorem c8_resolution_amended_witness :
    extractCallId exPayloadMeta = some "meta1" :=
  (c8_resolution_amended exPayloadMeta exDb8 0).1 "meta1" (by decide)

end DispatchMate
